import Mathlib

/-!
Shallow embedding of `src/dist/image-processor.js` (the ImageProcessor
jQuery plugin) and proofs about it.

The plugin's own logic is a thin layer: DOM provisioning (`_appendCanvas`,
`_appendImage`), image load detection (`_checkImageNotFound`,
`_checkImageLoaded`), dimension setting (`_setWidth`, `_setHeight`,
`_setDimensions`), the effect timeout race (`applyEffect`), grid drawing
(`buildGrid`) and teardown (`destroy`).  Each is embedded below as an
executable Lean function over explicit state; asynchronous behaviour
(the timer / engine-callback race, the deferred load check) is embedded
as a step function over an explicit event trace, since the runtime is
single-threaded and event-loop driven.
-/

namespace ImageProcessor

/-! ## Effect invocation (`applyEffect`, source lines 238-266)

The JS function, once the guard `this.effects.hasOwnProperty(effectName)
&& typeof target !== "undefined"` passes, starts a timeout timer and
invokes the external effects engine.  Two asynchronous events can then
occur, in either order: the timer fires, or the engine's completion
callback arrives.  We embed this as a state machine over an event trace.
The JS runtime delivers the timer event at most once (a `setTimeout`
timer is one-shot, and `clearTimeout` prevents a pending one from firing
at all); we model `clearTimeout` by clearing `timerActive`, after which a
timer event is a no-op, which is observationally the same.  The engine
(Pixastic) invokes its completion callback at most once; traces with more
than one engine event are excluded by hypothesis where that matters. -/

/-- The result drawing surface the engine hands to its completion callback
(`resultCanvas` in the source).  The plugin treats it opaquely, so a
numeric tag suffices. -/
abbrev Surface := Nat

/-- Mutable state of one `applyEffect` call's timeout race: the `timedOut`
flag and the pending `timer` from the source, plus the observables (how
many `image:effectError` notifications were triggered, and the list of
values the caller's callback was invoked with, in order). -/
structure RaceState where
  timedOut : Bool
  timerActive : Bool
  effectErrors : Nat
  callbackCalls : List Surface
deriving Repr, DecidableEq

/-- State right after `applyEffect` started the timer and invoked the
engine: `timedOut = false`, timer pending, nothing observed yet. -/
def RaceState.start : RaceState :=
  { timedOut := false, timerActive := true, effectErrors := 0, callbackCalls := [] }

/-- An asynchronous event of one `applyEffect` call: the timeout timer
fires, or the engine's completion callback arrives with a result. -/
inductive RaceEv where
  | timerFire
  | engine (r : Surface)
deriving Repr, DecidableEq

/-- One event step, read off the two callbacks in the source:

* timer callback (lines 251-254): `timedOut = true;
  self.$element.trigger("image:effectError");` — runs only if the timer
  is still pending (not cleared, not already fired);
* engine callback (lines 256-261): `if (!timedOut && typeof callback ===
  "function") { clearTimeout(timer); callback(resultCanvas); }`.

`cbIsFunction` is `typeof callback === "function"` for the call. -/
def raceStep (cbIsFunction : Bool) (s : RaceState) : RaceEv → RaceState
  | .timerFire =>
      if s.timerActive then
        { s with timedOut := true, timerActive := false,
                 effectErrors := s.effectErrors + 1 }
      else s
  | .engine _r =>
      if !s.timedOut && cbIsFunction then
        { s with timerActive := false,
                 callbackCalls := s.callbackCalls ++ [_r] }
      else s

/-- Run a trace of asynchronous events from a state. -/
def raceRun (cbIsFunction : Bool) (s : RaceState) : List RaceEv → RaceState
  | [] => s
  | e :: es => raceRun cbIsFunction (raceStep cbIsFunction s e) es

/-- Number of engine-completion events in a trace (the engine invokes its
callback at most once, so admissible traces have at most one). -/
def engineCount : List RaceEv → Nat
  | [] => 0
  | .engine _ :: es => engineCount es + 1
  | .timerFire :: es => engineCount es

/-- Options object of a configured effect, treated opaquely (`[]` plays
the role of the empty object `{}`). -/
abbrev EffectOptions := List (String × String)

/-- One entry of the configured `effects` mapping: `options` is `none`
when the entry has no `options` property (the source then falls back to
`{}` via `effect.options || {}`). -/
structure EffectEntry where
  options : Option EffectOptions
deriving Repr, DecidableEq

/-- `this.effects.hasOwnProperty(effectName)` / `this.effects[effectName]`
over an association-list embedding of the effects object. -/
def lookupEffect (effects : List (String × EffectEntry)) (name : String) :
    Option EffectEntry :=
  match effects with
  | [] => none
  | (k, v) :: rest => if k = name then some v else lookupEffect rest name

/-- The `target` argument: either a native element or a jQuery collection
(the only thing the source asks of a collection is `.length` and `[0]`). -/
inductive JQTarget where
  | elem (e : Nat)
  | coll (es : List Nat)
deriving Repr, DecidableEq

/-- `if (target.length) target = target[0];` (line 244): a collection with
non-zero length is unwrapped to its first element; a native element has no
`length` property (undefined, falsy) and an empty collection has length 0
(falsy), so both pass through unchanged. -/
def unwrapTarget : JQTarget → JQTarget
  | .elem e => .elem e
  | .coll [] => .coll []
  | .coll (e :: _) => .elem e

/-- Everything observable about one `applyEffect` call: whether a timeout
timer was started, whether the engine was invoked and with which
arguments, how many `image:effectError` notifications fired, and the
values the caller's callback received. -/
structure EffectOutcome where
  timerStarted : Bool
  engineInvoked : Bool
  engineArgs : Option (JQTarget × String × EffectOptions)
  effectErrors : Nat
  callbackCalls : List Surface
deriving Repr, DecidableEq

/-- The outcome of a call whose guard failed: nothing at all happened. -/
def EffectOutcome.noop : EffectOutcome :=
  { timerStarted := false, engineInvoked := false, engineArgs := none,
    effectErrors := 0, callbackCalls := [] }

/-- `applyEffect(effectName, target, callback)` (source lines 238-266),
with the asynchronous aftermath of the call summarised over the event
trace `events`.  `target = none` is `typeof target === "undefined"`;
`cbIsFunction` is `typeof callback === "function"`.  When the guard on
line 243 fails, the body is skipped entirely; otherwise the effect entry
is looked up, `options = effect.options || {}`, the timer is started and
the engine is invoked (the `effectsLib` switch has a single branch that
is also the default, so every library name reaches the same code). -/
def applyEffect (effects : List (String × EffectEntry)) (effectName : String)
    (target : Option JQTarget) (cbIsFunction : Bool)
    (events : List RaceEv) : EffectOutcome :=
  match lookupEffect effects effectName, target with
  | some effect, some tgt =>
      let t := unwrapTarget tgt
      let options := effect.options.getD []
      let s := raceRun cbIsFunction RaceState.start events
      { timerStarted := true, engineInvoked := true,
        engineArgs := some (t, effectName, options),
        effectErrors := s.effectErrors, callbackCalls := s.callbackCalls }
  | _, _ => EffectOutcome.noop

/-! ## Load detection (`_checkImageNotFound`, `_checkImageLoaded`,
source lines 101-119)

The deferred check inspects the image element's `complete` flag and
`naturalWidth` property and either triggers a notification now or
subscribes a handler to the image's `load` event.  No handler is ever
subscribed to the browser's `error` event. -/

/-- What the load detector reads off the image element: the
browser-reported `complete` flag and `naturalWidth` (`none` models the
property being `undefined`, as on very old browsers). -/
structure ImgElement where
  complete : Bool
  naturalWidth : Option Nat
deriving Repr, DecidableEq

/-- The three notifications the plugin can trigger on the host element
(`image:loaded`, `image:loadError`, `image:effectError`). -/
inductive Notification where
  | loaded
  | loadError
  | effectError
deriving Repr, DecidableEq

/-- `_checkImageNotFound` (lines 101-103): `imgEl.complete && typeof
imgEl.naturalWidth != "undefined" && imgEl.naturalWidth == 0`. -/
def _checkImageNotFound (imgEl : ImgElement) : Bool :=
  imgEl.complete && imgEl.naturalWidth.isSome
    && decide (imgEl.naturalWidth = some 0)

/-- Result of the deferred `_checkImageLoaded` run: the notifications
triggered immediately, and those that the handlers it registered will
trigger when the browser later emits a `load` or an `error` event on the
image. -/
structure LoadCheckResult where
  fired : List Notification
  onLoadEvent : List Notification
  onErrorEvent : List Notification
deriving Repr, DecidableEq

/-- `_checkImageLoaded` (lines 108-119): if `_checkImageNotFound` →
trigger `image:loadError`; else if `complete` → trigger `image:loaded`;
else subscribe to the image's `load` event a handler that triggers
`image:loaded`.  The source never subscribes anything to the browser's
`error` event, so `onErrorEvent` is `[]` in every branch. -/
def _checkImageLoaded (imgEl : ImgElement) : LoadCheckResult :=
  if _checkImageNotFound imgEl then
    { fired := [.loadError], onLoadEvent := [], onErrorEvent := [] }
  else if imgEl.complete then
    { fired := [.loaded], onLoadEvent := [], onErrorEvent := [] }
  else
    { fired := [], onLoadEvent := [.loaded], onErrorEvent := [] }

/-! ## Element provisioning (`_appendCanvas`, `_appendImage`, source
lines 71-93)

Both take a target container and an id.  The existence check
`$(target).find("#"+id)` searches the *descendants* of the target.
`_appendCanvas` then appends the new canvas as a *child* of the target
(`$(target).append(...)`), while `_appendImage` inserts the new image as
a *sibling right after* the target (`$(target).after(...)`).  The
subsequent `crossOrigin` assignment and `moveOffscreen` call only touch
properties/CSS of the element, not the document structure, so they do
not appear in this structural model. -/

/-- A target container within the document: the ids of its descendant
elements (flattened) and the ids of the sibling elements that sit after
it under its parent (nearest first, as `$(target).after` inserts
immediately after the target). -/
structure Container where
  children : List String
  siblingsAfter : List String
deriving Repr, DecidableEq

/-- Number of elements with the given id among the document nodes this
`Container` tracks (the target's descendants and its following siblings). -/
def Container.countId (c : Container) (id : String) : Nat :=
  (c.children.filter (fun s => s == id)).length
    + (c.siblingsAfter.filter (fun s => s == id)).length

/-- `_appendCanvas(target, id)` (lines 71-78): if
`$(target).find("#"+id)` matches nothing among the target's descendants,
append `<canvas id=id>` as a (last) child of the target. -/
def _appendCanvas (target : Container) (id : String) : Container :=
  if (target.children.filter (fun s => s == id)).length = 0 then
    { target with children := target.children ++ [id] }
  else target

/-- `_appendImage(target, id)` (lines 86-93): if `$(target).find("#"+id)`
matches nothing among the target's descendants, insert `<img id=id>`
right after the target — as a sibling, not a descendant. -/
def _appendImage (target : Container) (id : String) : Container :=
  if (target.children.filter (fun s => s == id)).length = 0 then
    { target with siblingsAfter := id :: target.siblingsAfter }
  else target

/-! ## Initialisation provisioning and teardown (`init` lines 305-351,
`destroy` lines 299-303)

`init` appends the stage canvas and the scratch canvas to `<body>` and
the scratch image after the host element; `destroy` removes the stage
element, the scratch canvas element, and the host element (`$("#"+
this.element.id).remove()`).  We model the document as the host element
plus the id-bearing nodes the plugin touches. -/

/-- The document as the plugin sees it: the host element (id `hostId`,
present until removed, with its descendants), the host's following
siblings (where `_appendImage` inserts), and the extra elements the
plugin appended directly to `<body>`. -/
structure Doc where
  hostId : String
  hostPresent : Bool
  hostChildren : List String
  hostAfter : List String
  bodyExtra : List String
deriving Repr, DecidableEq

/-- Ids of all elements currently in the document (of the nodes this
model tracks).  Removing the host removes its descendants with it, but
not its siblings. -/
def Doc.allIds (d : Doc) : List String :=
  d.bodyExtra
    ++ (if d.hostPresent then d.hostId :: d.hostChildren else [])
    ++ d.hostAfter

/-- `_appendCanvas.call(this, "body", id)`: `$("body").find("#"+id)`
searches the whole document body, and the new canvas becomes a child of
`<body>` (tracked in `bodyExtra`). -/
def Doc.appendCanvasToBody (d : Doc) (id : String) : Doc :=
  if (d.allIds.filter (fun s => s == id)).length = 0 then
    { d with bodyExtra := d.bodyExtra ++ [id] }
  else d

/-- `_appendImage.call(this, this.element, id)`: `$(host).find("#"+id)`
searches only the host's descendants, and the new image is inserted right
after the host (a sibling). -/
def Doc.appendImageAfterHost (d : Doc) (id : String) : Doc :=
  if d.hostPresent && (d.hostChildren.filter (fun s => s == id)).length = 0 then
    { d with hostAfter := id :: d.hostAfter }
  else d

/-- The DOM provisioning performed by `init` (lines 314-321): stage
canvas and scratch canvas appended to `<body>`, scratch image appended
after the host element. -/
def Doc.initProvision (d : Doc) (stageId scratchCanvasId scratchImageId : String) :
    Doc :=
  ((d.appendCanvasToBody stageId).appendCanvasToBody scratchCanvasId
    ).appendImageAfterHost scratchImageId

/-- `$("#"+id).remove()`: the element with that id leaves the document
(with its subtree; ids are unique in the scenarios considered, so
removing every occurrence is faithful). -/
def Doc.removeId (d : Doc) (id : String) : Doc :=
  { d with
    bodyExtra := d.bodyExtra.filter (fun s => s != id),
    hostAfter := d.hostAfter.filter (fun s => s != id),
    hostChildren := d.hostChildren.filter (fun s => s != id),
    hostPresent := d.hostPresent && d.hostId != id }

/-- `destroy` (lines 299-303): `this.$stageEl.remove();
this.$scratchCanvasEl.remove(); $("#"+this.element.id).remove();` — the
stage element, the scratch canvas element and the host element are
removed; nothing else is. -/
def Doc.destroy (d : Doc) (stageId scratchCanvasId : String) : Doc :=
  ((d.removeId stageId).removeId scratchCanvasId).removeId d.hostId

/-! ## Dimension setting (`_setWidth`, `_setHeight`, `_setDimensions`,
source lines 37-63)

`_setWidth(el, w)` is `if (isNaN(parseInt(w, 10))) return;
el.attr("width", w);` — the *original* value `w` is written to the
attribute whenever `parseInt(w, 10)` is not NaN.  We embed the JS values
that can reach these functions and `parseInt(·, 10)` on them (`none` is
NaN). -/

/-- A configured dimension value as it reaches `_setWidth`/`_setHeight`:
an integer-valued number, a string, or `undefined`. -/
inductive JSValue where
  | num (n : Int)
  | str (s : String)
  | undef
deriving Repr, DecidableEq

/-- The maximal leading run of decimal digits of a character list. -/
def takeDigits : List Char → List Char
  | [] => []
  | c :: cs => if c.isDigit then c :: takeDigits cs else []

/-- Numeric value of a list of decimal digits. -/
def digitsToNat (cs : List Char) : Nat :=
  cs.foldl (fun acc c => acc * 10 + (c.toNat - 48)) 0

/-- JavaScript `parseInt(s, 10)` on a string: skip leading whitespace,
allow one sign, then take the maximal run of decimal digits; NaN (`none`)
when that run is empty. -/
def parseInt10String (s : String) : Option Int :=
  let cs := s.toList.dropWhile (fun c => c = ' ' || c = '\t' || c = '\n' || c = '\r')
  match cs with
  | '-' :: rest =>
      match takeDigits rest with
      | [] => none
      | ds => some (-(digitsToNat ds : Int))
  | '+' :: rest =>
      match takeDigits rest with
      | [] => none
      | ds => some ((digitsToNat ds : Int))
  | _ =>
      match takeDigits cs with
      | [] => none
      | ds => some ((digitsToNat ds : Int))

/-- JavaScript `parseInt(v, 10)`: the argument is coerced to a string
first.  An integer-valued number renders as its decimal digits and parses
back to itself; `undefined` renders as `"undefined"` and parses to NaN. -/
def parseInt10 : JSValue → Option Int
  | .num n => some n
  | .str s => parseInt10String s
  | .undef => none

/-- An element's `width`/`height` attributes, absent until set. -/
structure DomEl where
  widthAttr : Option JSValue
  heightAttr : Option JSValue
deriving Repr, DecidableEq

/-- `_setWidth` (lines 37-40): `if (isNaN(parseInt(w, 10))) return;
el.attr("width", w);`. -/
def _setWidth (el : DomEl) (w : JSValue) : DomEl :=
  if (parseInt10 w).isNone then el
  else { el with widthAttr := some w }

/-- `_setHeight` (lines 48-51): `if (isNaN(parseInt(h, 10))) return;
el.attr("height", h);`. -/
def _setHeight (el : DomEl) (h : JSValue) : DomEl :=
  if (parseInt10 h).isNone then el
  else { el with heightAttr := some h }

/-- `_setDimensions` (lines 59-63): no-op when either argument is
undefined, else `_setWidth` then `_setHeight`. -/
def _setDimensions (el : Option DomEl) (dims : Option (JSValue × JSValue)) :
    Option DomEl :=
  match el, dims with
  | some el, some (w, h) => some (_setHeight (_setWidth el w) h)
  | el, _ => el

/-- The spec's side condition, formalised from its words for comparison
with the source's `_setWidth`/`_setHeight` guard: the value "is a valid
non-negative integer".  A string or `undefined` is not itself an integer;
a number is a valid non-negative integer exactly when it is `≥ 0`. -/
def specValidNonNegInt : JSValue → Bool
  | .num n => decide (0 ≤ n)
  | .str _ => false
  | .undef => false

/-! ## Grid drawing (`buildGrid`, source lines 276-294)

Two `for` loops: `for (; x < canvas.width; x += gridSize)` issuing a
vertical segment `moveTo(x, 0) / lineTo(x, canvas.height)`, then
`for (; y < canvas.height; y += gridSize)` issuing a horizontal segment
`moveTo(0, y) / lineTo(canvas.width-1, y)`.  The loop is embedded with a
fuel argument (`limit` iterations always suffice once `gridSize ≥ 1`;
with `gridSize = 0` the JS loop would never terminate, and the fuel
embedding truncates instead). -/

/-- The successive values of the loop counter of
`for (; x < limit; x += step)` starting at `x`, with fuel. -/
def gridTicksAux (fuel limit step x : Nat) : List Nat :=
  match fuel with
  | 0 => []
  | f + 1 => if x < limit then x :: gridTicksAux f limit step (x + step) else []

/-- Loop-counter values of `for (; x < limit; x += step)` from 0. -/
def gridTicks (limit step : Nat) : List Nat :=
  gridTicksAux limit limit step 0

/-- One `moveTo(x1, y1) / lineTo(x2, y2)` stroke path segment. -/
structure GridSegment where
  x1 : Nat
  y1 : Nat
  x2 : Nat
  y2 : Nat
deriving Repr, DecidableEq

/-- `buildGrid` (lines 276-294), as the list of stroke path segments it
issues, vertical lines first: vertical `(x,0)-(x,height)` for each tick
`x < width`, then horizontal `(0,y)-(width-1,y)` for each tick
`y < height`. -/
def buildGrid (width height gridSize : Nat) : List GridSegment :=
  ((gridTicks width gridSize).map fun x =>
      { x1 := x, y1 := 0, x2 := x, y2 := height })
    ++ ((gridTicks height gridSize).map fun y =>
      { x1 := 0, y1 := y, x2 := width - 1, y2 := y })

/-- Invariant of the race machine: once the timed-out flag is set, the
timer is no longer pending (it is the firing of the timer that sets the
flag). -/
def RaceState.ok (s : RaceState) : Prop :=
  s.timedOut = true → s.timerActive = false

/-! ## Helper lemmas about the race machine -/

theorem raceRun_append (cb : Bool) (s : RaceState) (p q : List RaceEv) :
    raceRun cb s (p ++ q) = raceRun cb (raceRun cb s p) q := by
  induction p generalizing s with
  | nil => rfl
  | cons e es ih =>
      rw [List.cons_append, raceRun, raceRun, ih]

theorem raceStep_frozen (cb : Bool) (s : RaceState) (e : RaceEv)
    (ht : s.timedOut = true) (ha : s.timerActive = false) :
    raceStep cb s e = s := by
  cases e <;> simp [raceStep, ht, ha]

theorem raceRun_frozen (cb : Bool) (s : RaceState) (tr : List RaceEv)
    (ht : s.timedOut = true) (ha : s.timerActive = false) :
    raceRun cb s tr = s := by
  induction tr with
  | nil => rfl
  | cons e es ih => rw [raceRun, raceStep_frozen cb s e ht ha, ih]

theorem raceStep_ok (cb : Bool) (s : RaceState) (e : RaceEv)
    (h : s.ok) : (raceStep cb s e).ok := by
  cases e with
  | timerFire =>
      by_cases ha : s.timerActive = true
      · simp [raceStep, ha, RaceState.ok]
      · simp only [Bool.not_eq_true] at ha
        simpa [raceStep, ha] using h
  | engine r =>
      by_cases hb : (!s.timedOut && cb) = true
      · simp only [raceStep, hb, if_pos]
        intro ht
        rfl
      · simpa [raceStep, hb] using h

theorem raceRun_ok (cb : Bool) (s : RaceState) (tr : List RaceEv)
    (h : s.ok) : (raceRun cb s tr).ok := by
  induction tr generalizing s with
  | nil => exact h
  | cons e es ih => exact ih _ (raceStep_ok cb s e h)

theorem raceStep_timerFire_calls (cb : Bool) (s : RaceState) :
    (raceStep cb s .timerFire).callbackCalls = s.callbackCalls := by
  by_cases ha : s.timerActive = true <;> simp [raceStep, ha]

theorem raceStep_engine_calls_le (cb : Bool) (s : RaceState) (r : Surface) :
    (raceStep cb s (.engine r)).callbackCalls.length
      ≤ s.callbackCalls.length + 1 := by
  by_cases hb : (!s.timedOut && cb) = true <;> simp [raceStep, hb]

theorem raceRun_calls_le (cb : Bool) (s : RaceState) (tr : List RaceEv) :
    (raceRun cb s tr).callbackCalls.length
      ≤ s.callbackCalls.length + engineCount tr := by
  induction tr generalizing s with
  | nil => simp [raceRun, engineCount]
  | cons e es ih =>
      cases e with
      | timerFire =>
          calc (raceRun cb (raceStep cb s .timerFire) es).callbackCalls.length
              ≤ (raceStep cb s .timerFire).callbackCalls.length + engineCount es :=
                ih _
            _ = s.callbackCalls.length + engineCount (.timerFire :: es) := by
                rw [raceStep_timerFire_calls]; rfl
      | engine r =>
          calc (raceRun cb (raceStep cb s (.engine r)) es).callbackCalls.length
              ≤ (raceStep cb s (.engine r)).callbackCalls.length + engineCount es :=
                ih _
            _ ≤ (s.callbackCalls.length + 1) + engineCount es := by
                exact Nat.add_le_add_right (raceStep_engine_calls_le cb s r) _
            _ = s.callbackCalls.length + engineCount (.engine r :: es) := by
                simp [engineCount]; omega

theorem raceRun_noEngine_timerCleared (cb : Bool) (s : RaceState)
    (q : List RaceEv) (hq : engineCount q = 0) (ha : s.timerActive = false) :
    raceRun cb s q = s := by
  induction q with
  | nil => rfl
  | cons e es ih =>
      cases e with
      | timerFire =>
          rw [raceRun]
          have hstep : raceStep cb s .timerFire = s := by simp [raceStep, ha]
          rw [hstep]
          exact ih hq
      | engine r => simp [engineCount] at hq

/-! ## Claim theorems -/

/-- Claim C1: for every `applyEffect` call with a configured effect name
and a defined target, if the timeout timer fires before the engine
callback, exactly one effect-error notification is raised, the late
engine callback is ignored, and the caller's callback is never invoked;
and in all cases (any admissible event trace — the engine completes at
most once) the caller's callback is invoked at most once and never after
a timeout has been signaled (once the timed-out flag is set by some
event sequence `p`, any further events `q` change nothing about the
call's outcome). -/
theorem applyEffect_timerFirst_exactlyOneError
    (effects : List (String × EffectEntry)) (effectName : String)
    (tgt : JQTarget) (entry : EffectEntry)
    (hc : lookupEffect effects effectName = some entry)
    (cb : Bool) (r : Surface) (p q tr : List RaceEv)
    (hp : (raceRun cb RaceState.start p).timedOut = true)
    (htr : engineCount tr ≤ 1) :
    (applyEffect effects effectName (some tgt) cb
        [RaceEv.timerFire, RaceEv.engine r]).effectErrors = 1
    ∧ (applyEffect effects effectName (some tgt) cb
        [RaceEv.timerFire, RaceEv.engine r]).callbackCalls = []
    ∧ applyEffect effects effectName (some tgt) cb (p ++ q)
        = applyEffect effects effectName (some tgt) cb p
    ∧ (applyEffect effects effectName (some tgt) cb tr).callbackCalls.length
        ≤ 1 := by
  have hfreeze : raceRun cb RaceState.start (p ++ q)
      = raceRun cb RaceState.start p := by
    rw [raceRun_append]
    exact raceRun_frozen cb _ q hp
      (raceRun_ok cb RaceState.start p (by intro h; simp [RaceState.start] at h) hp)
  have hle : (raceRun cb RaceState.start tr).callbackCalls.length ≤ 1 := by
    have h1 := raceRun_calls_le cb RaceState.start tr
    have h2 : RaceState.start.callbackCalls.length = 0 := rfl
    omega
  refine ⟨?_, ?_, ?_, ?_⟩
  · simp [applyEffect, hc, raceRun, raceStep, RaceState.start]
  · simp [applyEffect, hc, raceRun, raceStep, RaceState.start]
  · simp only [applyEffect, hc, hfreeze]
  · simpa [applyEffect, hc] using hle

/-- Witness for C1 at a concrete configuration, target, traces. -/
theorem applyEffect_timerFirst_exactlyOneError_witness :
    lookupEffect [("blur", { options := none })] "blur"
        = some { options := none }
    ∧ (raceRun true RaceState.start [RaceEv.timerFire]).timedOut = true
    ∧ engineCount [RaceEv.engine 5] ≤ 1
    ∧ ((applyEffect [("blur", { options := none })] "blur"
          (some (JQTarget.elem 0)) true
          [RaceEv.timerFire, RaceEv.engine 7]).effectErrors = 1
        ∧ (applyEffect [("blur", { options := none })] "blur"
          (some (JQTarget.elem 0)) true
          [RaceEv.timerFire, RaceEv.engine 7]).callbackCalls = []
        ∧ applyEffect [("blur", { options := none })] "blur"
          (some (JQTarget.elem 0)) true ([RaceEv.timerFire] ++ [RaceEv.engine 5])
          = applyEffect [("blur", { options := none })] "blur"
          (some (JQTarget.elem 0)) true [RaceEv.timerFire]
        ∧ (applyEffect [("blur", { options := none })] "blur"
          (some (JQTarget.elem 0)) true
          [RaceEv.engine 5]).callbackCalls.length ≤ 1) :=
  ⟨by decide, by decide, by decide,
    applyEffect_timerFirst_exactlyOneError
      [("blur", { options := none })] "blur" (JQTarget.elem 0)
      { options := none } (by decide) true 7
      [RaceEv.timerFire] [RaceEv.engine 5] [RaceEv.engine 5]
      (by decide) (by decide)⟩

/-- Claim C2 counterexample: with a configured effect, a defined target
and a supplied callback that is not a function (`cbIsFunction = false`),
the engine completing before the timeout invokes no callback and does not
prevent the timer from raising an effect-error — so the claim, stated for
*every* call, is false at this input. -/
theorem applyEffect_engineFirst_nonfunction_cex :
    ¬ ((applyEffect [("blur", { options := none })] "blur"
          (some (JQTarget.elem 0)) false
          [RaceEv.engine 7, RaceEv.timerFire]).callbackCalls.length = 1
        ∧ (applyEffect [("blur", { options := none })] "blur"
          (some (JQTarget.elem 0)) false
          [RaceEv.engine 7, RaceEv.timerFire]).effectErrors = 0) := by
  decide

/-- Claim C2 (amended): for every `applyEffect` call with a configured
effect name, a defined target and a supplied callback that is a
function, if the engine callback fires before the configured timeout,
the caller's callback is invoked exactly once with the engine's
resulting drawing surface, the timer is canceled, and no effect-error
notification is ever raised for that call (whatever later timer events
the runtime would have delivered). -/
theorem applyEffect_engineFirst_callbackOnce
    (effects : List (String × EffectEntry)) (effectName : String)
    (tgt : JQTarget) (entry : EffectEntry)
    (hc : lookupEffect effects effectName = some entry)
    (r : Surface) (q : List RaceEv) (hq : engineCount q = 0) :
    (applyEffect effects effectName (some tgt) true
        (RaceEv.engine r :: q)).callbackCalls = [r]
    ∧ (applyEffect effects effectName (some tgt) true
        (RaceEv.engine r :: q)).effectErrors = 0
    ∧ (raceRun true RaceState.start [RaceEv.engine r]).timerActive = false := by
  have hstate : raceRun true RaceState.start (RaceEv.engine r :: q)
      = { timedOut := false, timerActive := false, effectErrors := 0,
          callbackCalls := [r] } := by
    rw [raceRun]
    have hstep : raceStep true RaceState.start (RaceEv.engine r)
        = { timedOut := false, timerActive := false, effectErrors := 0,
            callbackCalls := [r] } := by
      simp [raceStep, RaceState.start]
    rw [hstep]
    exact raceRun_noEngine_timerCleared true _ q hq rfl
  refine ⟨?_, ?_, by simp [raceRun, raceStep, RaceState.start]⟩
  · simp [applyEffect, hc, hstate]
  · simp [applyEffect, hc, hstate]

/-- Witness for C2's amended theorem at a concrete configuration. -/
theorem applyEffect_engineFirst_callbackOnce_witness :
    lookupEffect [("blur", { options := none })] "blur"
        = some { options := none }
    ∧ engineCount [RaceEv.timerFire] = 0
    ∧ ((applyEffect [("blur", { options := none })] "blur"
          (some (JQTarget.elem 0)) true
          (RaceEv.engine 7 :: [RaceEv.timerFire])).callbackCalls = [7]
        ∧ (applyEffect [("blur", { options := none })] "blur"
          (some (JQTarget.elem 0)) true
          (RaceEv.engine 7 :: [RaceEv.timerFire])).effectErrors = 0
        ∧ (raceRun true RaceState.start [RaceEv.engine 7]).timerActive = false) :=
  ⟨by decide, by decide,
    applyEffect_engineFirst_callbackOnce
      [("blur", { options := none })] "blur" (JQTarget.elem 0)
      { options := none } (by decide) 7 [RaceEv.timerFire] (by decide)⟩

/-- Claim C5: an `applyEffect` call whose effect name is not a key of the
configured effects mapping, or whose target is undefined, is a silent
no-op: no timer started, no engine invocation, no callback invocation,
no notification, whatever asynchronous events follow. -/
theorem applyEffect_unconfigured_noop
    (effects : List (String × EffectEntry)) (effectName : String)
    (target : Option JQTarget) (cb : Bool) (events : List RaceEv)
    (h : lookupEffect effects effectName = none ∨ target = none) :
    applyEffect effects effectName target cb events = EffectOutcome.noop := by
  rcases h with h | h
  · cases target <;> simp [applyEffect, h]
  · subst h
    cases hl : lookupEffect effects effectName <;> simp [applyEffect, hl]

/-- Witness for C5: the unconfigured name "blur" over an empty effects
mapping is a no-op. -/
theorem applyEffect_unconfigured_noop_witness :
    (lookupEffect ([] : List (String × EffectEntry)) "blur" = none
        ∨ (some (JQTarget.elem 0) : Option JQTarget) = none)
    ∧ applyEffect [] "blur" (some (JQTarget.elem 0)) true [RaceEv.timerFire]
        = EffectOutcome.noop :=
  ⟨Or.inl rfl,
    applyEffect_unconfigured_noop [] "blur" (some (JQTarget.elem 0)) true
      [RaceEv.timerFire] (Or.inl rfl)⟩

/-- Claim C10 (implicit): with a configured effect name, a defined target
and a supplied callback that is not a function, a successful engine
completion before the timeout invokes no callback and does not cancel
the timer (it stays pending), so the timer later fires and raises an
effect-error notification even though the effect completed. -/
theorem applyEffect_nonfunction_timerNotCanceled
    (effects : List (String × EffectEntry)) (effectName : String)
    (tgt : JQTarget) (entry : EffectEntry)
    (hc : lookupEffect effects effectName = some entry)
    (r : Surface) :
    (applyEffect effects effectName (some tgt) false
        [RaceEv.engine r]).callbackCalls = []
    ∧ (raceRun false RaceState.start [RaceEv.engine r]).timerActive = true
    ∧ (applyEffect effects effectName (some tgt) false
        [RaceEv.engine r, RaceEv.timerFire]).effectErrors = 1 := by
  refine ⟨?_, by simp [raceRun, raceStep, RaceState.start], ?_⟩
  · simp [applyEffect, hc, raceRun, raceStep, RaceState.start]
  · simp [applyEffect, hc, raceRun, raceStep, RaceState.start]

/-- Witness for C10 at a concrete configuration. -/
theorem applyEffect_nonfunction_timerNotCanceled_witness :
    lookupEffect [("blur", { options := none })] "blur"
        = some { options := none }
    ∧ ((applyEffect [("blur", { options := none })] "blur"
          (some (JQTarget.elem 0)) false
          [RaceEv.engine 7]).callbackCalls = []
        ∧ (raceRun false RaceState.start [RaceEv.engine 7]).timerActive = true
        ∧ (applyEffect [("blur", { options := none })] "blur"
          (some (JQTarget.elem 0)) false
          [RaceEv.engine 7, RaceEv.timerFire]).effectErrors = 1) :=
  ⟨by decide,
    applyEffect_nonfunction_timerNotCanceled
      [("blur", { options := none })] "blur" (JQTarget.elem 0)
      { options := none } (by decide) 7⟩

/-- Claim C3, evaluated at the failing input: `_appendImage` called twice
with the same target (a host with no descendants) and the same id leaves
two document elements with that id — the existence check searches only
the target's descendants while the insertion places the image among the
target's siblings.  By contrast, `_appendCanvas` (which appends as a
child, where its check looks) is idempotent at the same input. -/
theorem appendImage_twice_duplicates :
    Container.countId
      (_appendImage
        (_appendImage { children := [], siblingsAfter := [] } "img_host")
        "img_host") "img_host" = 2
    ∧ _appendCanvas
        (_appendCanvas { children := [], siblingsAfter := [] } "stage") "stage"
      = _appendCanvas { children := [], siblingsAfter := [] } "stage" := by
  decide

/-- Claim C4: for every image whose `complete` flag is set at the deferred
check, exactly one notification fires now (and none is deferred to a
future event): `image:loadError` exactly when the intrinsic width is
zero, `image:loaded` otherwise (in particular whenever the intrinsic
size is known and non-zero). -/
theorem checkImageLoaded_complete_oneNotification
    (imgEl : ImgElement) (h : imgEl.complete = true) :
    (_checkImageLoaded imgEl).fired.length = 1
    ∧ (_checkImageLoaded imgEl).onLoadEvent = []
    ∧ (_checkImageLoaded imgEl).onErrorEvent = []
    ∧ (imgEl.naturalWidth = some 0 →
        (_checkImageLoaded imgEl).fired = [Notification.loadError])
    ∧ (imgEl.naturalWidth ≠ some 0 →
        (_checkImageLoaded imgEl).fired = [Notification.loaded]) := by
  by_cases hnf : _checkImageNotFound imgEl = true
  · have hw : imgEl.naturalWidth = some 0 := by
      simp only [_checkImageNotFound, Bool.and_eq_true, decide_eq_true_eq] at hnf
      exact hnf.2
    simp [_checkImageLoaded, hnf, hw]
  · have hw : imgEl.naturalWidth ≠ some 0 := by
      intro hw0
      apply hnf
      simp [_checkImageNotFound, h, hw0]
    simp only [Bool.not_eq_true] at hnf
    simp [_checkImageLoaded, hnf, h, hw]

/-- Witness for C4 at a complete image of intrinsic width zero. -/
theorem checkImageLoaded_complete_oneNotification_witness :
    ({ complete := true, naturalWidth := some 0 } : ImgElement).complete = true
    ∧ ((_checkImageLoaded
          { complete := true, naturalWidth := some 0 }).fired.length = 1
        ∧ (_checkImageLoaded
          { complete := true, naturalWidth := some 0 }).onLoadEvent = []
        ∧ (_checkImageLoaded
          { complete := true, naturalWidth := some 0 }).onErrorEvent = []
        ∧ (({ complete := true, naturalWidth := some 0 } : ImgElement).naturalWidth
              = some 0 →
            (_checkImageLoaded
              { complete := true, naturalWidth := some 0 }).fired
              = [Notification.loadError])
        ∧ (({ complete := true, naturalWidth := some 0 } : ImgElement).naturalWidth
              ≠ some 0 →
            (_checkImageLoaded
              { complete := true, naturalWidth := some 0 }).fired
              = [Notification.loaded])) :=
  ⟨rfl, checkImageLoaded_complete_oneNotification
    { complete := true, naturalWidth := some 0 } rfl⟩

/-- Claim C6 counterexample: `_setWidth` applies the configured value
`-5` to the element's `width` attribute (since `parseInt(-5, 10)` is not
NaN) even though `-5` is not a valid non-negative integer — so "applied
exactly when it is a valid non-negative integer" is false at this
input. -/
theorem setWidth_negative_applied_cex :
    (_setWidth { widthAttr := none, heightAttr := none }
        (JSValue.num (-5))).widthAttr = some (JSValue.num (-5))
    ∧ specValidNonNegInt (JSValue.num (-5)) = false := by
  decide

/-- Claim C6 (amended): a configured stage or scratch-canvas dimension is
applied to the element exactly when `parseInt(value, 10)` is not NaN —
in particular any integer value, negative ones included, is applied;
a value parsing to NaN is silently ignored, leaving the element
unchanged. -/
theorem setDims_applied_iff_parseInt
    (el : DomEl) (w h : JSValue)
    (hw : el.widthAttr = none) (hh : el.heightAttr = none) :
    ((_setWidth el w).widthAttr = some w ↔ (parseInt10 w).isSome = true)
    ∧ ((parseInt10 w).isNone = true → _setWidth el w = el)
    ∧ ((_setHeight el h).heightAttr = some h ↔ (parseInt10 h).isSome = true)
    ∧ ((parseInt10 h).isNone = true → _setHeight el h = el) := by
  refine ⟨?_, ?_, ?_, ?_⟩
  · cases hpw : parseInt10 w <;> simp [_setWidth, hpw, hw]
  · intro hpw
    simp [_setWidth, hpw]
  · cases hph : parseInt10 h <;> simp [_setHeight, hph, hh]
  · intro hph
    simp [_setHeight, hph]

/-- Witness for C6's amended theorem: width `5` (valid) is applied,
height `"abc"` (parses to NaN) is ignored, on a fresh element. -/
theorem setDims_applied_iff_parseInt_witness :
    ({ widthAttr := none, heightAttr := none } : DomEl).widthAttr = none
    ∧ ({ widthAttr := none, heightAttr := none } : DomEl).heightAttr = none
    ∧ (((_setWidth { widthAttr := none, heightAttr := none }
            (JSValue.num 5)).widthAttr = some (JSValue.num 5)
          ↔ (parseInt10 (JSValue.num 5)).isSome = true)
        ∧ ((parseInt10 (JSValue.num 5)).isNone = true →
            _setWidth { widthAttr := none, heightAttr := none }
              (JSValue.num 5) = { widthAttr := none, heightAttr := none })
        ∧ ((_setHeight { widthAttr := none, heightAttr := none }
            (JSValue.str "abc")).heightAttr = some (JSValue.str "abc")
          ↔ (parseInt10 (JSValue.str "abc")).isSome = true)
        ∧ ((parseInt10 (JSValue.str "abc")).isNone = true →
            _setHeight { widthAttr := none, heightAttr := none }
              (JSValue.str "abc") = { widthAttr := none, heightAttr := none })) :=
  ⟨rfl, rfl,
    setDims_applied_iff_parseInt { widthAttr := none, heightAttr := none }
      (JSValue.num 5) (JSValue.str "abc") rfl rfl⟩

/-- Claim C7, evaluated at the failing input: provisioning at `init` with
the default ids on host `"host"` and then calling `destroy` removes the
stage canvas, the scratch canvas and the host element, but the scratch
image — inserted as a sibling of the host, not a descendant — is the one
id-bearing node still in the document. -/
theorem destroy_leaves_scratchImage :
    (Doc.destroy
        (Doc.initProvision
          { hostId := "host", hostPresent := true, hostChildren := [],
            hostAfter := [], bodyExtra := [] }
          "stage" "scratchCanvas" "img_host")
        "stage" "scratchCanvas").allIds = ["img_host"] := by
  decide

/-- Claim C8: for every image that is incomplete at the deferred check,
no notification fires at check time, the only subscription made is to
the image's `load` event (whose handler triggers `image:loaded`), and
nothing is ever subscribed to the browser's `error` event — so a later
load failure can never raise a load-error notification. -/
theorem checkImageLoaded_incomplete_noLoadError
    (imgEl : ImgElement) (h : imgEl.complete = false) :
    (_checkImageLoaded imgEl).fired = []
    ∧ (_checkImageLoaded imgEl).onLoadEvent = [Notification.loaded]
    ∧ (_checkImageLoaded imgEl).onErrorEvent = []
    ∧ Notification.loadError ∉ (_checkImageLoaded imgEl).onLoadEvent := by
  have hnf : _checkImageNotFound imgEl = false := by
    simp [_checkImageNotFound, h]
  simp [_checkImageLoaded, hnf, h]

/-- Witness for C8 at a concrete incomplete image. -/
theorem checkImageLoaded_incomplete_noLoadError_witness :
    ({ complete := false, naturalWidth := none } : ImgElement).complete = false
    ∧ ((_checkImageLoaded
          { complete := false, naturalWidth := none }).fired = []
        ∧ (_checkImageLoaded
          { complete := false, naturalWidth := none }).onLoadEvent
          = [Notification.loaded]
        ∧ (_checkImageLoaded
          { complete := false, naturalWidth := none }).onErrorEvent = []
        ∧ Notification.loadError ∉ (_checkImageLoaded
          { complete := false, naturalWidth := none }).onLoadEvent) :=
  ⟨rfl, checkImageLoaded_incomplete_noLoadError
    { complete := false, naturalWidth := none } rfl⟩

/-- Claim C9: on a 100×100 surface with gridSize 25, `buildGrid` issues
exactly the vertical stroke segments at x = 0, 25, 50, 75 (full height)
and the horizontal ones at y = 0, 25, 50, 75 (to x = width−1), and no
others. -/
theorem buildGrid_100_25_segments :
    buildGrid 100 100 25 =
      [{ x1 := 0, y1 := 0, x2 := 0, y2 := 100 },
       { x1 := 25, y1 := 0, x2 := 25, y2 := 100 },
       { x1 := 50, y1 := 0, x2 := 50, y2 := 100 },
       { x1 := 75, y1 := 0, x2 := 75, y2 := 100 },
       { x1 := 0, y1 := 0, x2 := 99, y2 := 0 },
       { x1 := 0, y1 := 25, x2 := 99, y2 := 25 },
       { x1 := 0, y1 := 50, x2 := 99, y2 := 50 },
       { x1 := 0, y1 := 75, x2 := 99, y2 := 75 }] := by
  decide

end ImageProcessor
